import Mathlib

/-!
Shallow embedding of `src/GameSimulator.py` (class `Character`, function
`run_simulation`, and the trajectory-summarization part of
`plot_average_health`).

Modelling conventions:

* Python floats are modelled as rationals (`ℚ`), integers as `ℤ`/`ℕ`.
* The global `random` module is modelled by an explicit oracle `Rng`: a stream
  of rational draws with a cursor.  A call to `random.random()` consumes one
  draw (the uniform sample `u`); a call to `random.gauss(mu, sigma)` consumes
  one draw `z` (the standard-normal sample) and returns `mu + sigma * z`.
  Draws are consumed in exactly the order the Python code makes the calls.
* Python `int(x)` truncates toward zero; this is `truncToZero`.
* The `while` loop of `run_simulation` is embedded with explicit fuel:
  `runTrial` returns `none` when the fuel is exhausted before the loop
  condition fails (the Python loop has no bound and can diverge).
* The per-trial state is instrumented with a `trace : List Event` recording
  which action branches actually resolved, in program order.  The trace is
  write-only: no dynamics read it, so it does not perturb the embedding.
* The defaultdict histories `tick -> samples` of the Python code are
  represented per trial: each trial contributes the list of its pre-action
  health snapshots at consecutive ticks `0, 1, ...`; the aggregate sample list
  of a tick is recovered by `samplesAt`.
-/

/-- Python `int()` applied to a real value: truncation toward zero
(`-⌊-q⌋ = ⌈q⌉` on negative inputs). -/
def truncToZero (q : ℚ) : ℤ := if 0 ≤ q then ⌊q⌋ else -⌊-q⌋

/-- Oracle for the Python `random` module: a stream of draws and a cursor.
`stream n` is the `n`-th draw made by the program. -/
structure Rng where
  stream : Nat → ℚ
  pos : Nat

/-- Consume one draw. -/
def Rng.next (r : Rng) : ℚ × Rng := (r.stream r.pos, { r with pos := r.pos + 1 })

/-- The keyword parameters handed to `Character.__init__`
(`run_simulation` lines 51-52 pass them as `**char_x_params`). -/
structure ArchetypeParams where
  attack_power : ℚ
  health : ℤ
  healing : ℚ
  attack_cooldown : ℚ
  healing_cooldown : ℚ

/-- The mutable per-trial state of class `Character` (GameSimulator.py lines
5-17). -/
structure Character where
  name : String
  attack_power : ℚ
  healing : ℚ
  max_health : ℤ
  health : ℤ
  attack_cooldown : ℚ
  healing_cooldown : ℚ
  time_until_attack : ℚ
  time_until_heal : ℚ

/-- `Character.__init__`: `max_health` and `health` start at the `health`
parameter, both action timers start at `0.0`. -/
def Character.init (name : String) (p : ArchetypeParams) : Character :=
  { name := name
    attack_power := p.attack_power
    healing := p.healing
    max_health := p.health
    health := p.health
    attack_cooldown := p.attack_cooldown
    healing_cooldown := p.healing_cooldown
    time_until_attack := 0
    time_until_heal := 0 }

/-- `Character.attack` (lines 19-28): miss (damage 0) when
`random.random() < 0.05`; otherwise `max(0, int(random.gauss(attack_power, 8)))`.
Returns the damage, the (unmodified) character, and the advanced rng. -/
def Character.attack (c : Character) (r : Rng) : ℤ × Character × Rng :=
  let u := r.next
  if u.1 < 1/20 then (0, c, u.2)
  else
    let z := u.2.next
    let base_damage := truncToZero (c.attack_power + 8 * z.1)
    (max 0 base_damage, c, z.2)

/-- `Character.heal` (lines 30-39): on a miss (`random.random() < 0.05`)
returns the current health and changes nothing; otherwise
`heal_variance = random.gauss(1.0, 0.2)`,
`healing_amount = int(healing * heal_variance)`, and
`health = min(health + healing_amount, max_health)` (Python returns `None`,
modelled as `none`). -/
def Character.heal (c : Character) (r : Rng) : Option ℤ × Character × Rng :=
  let u := r.next
  if u.1 < 1/20 then (some c.health, c, u.2)
  else
    let z := u.2.next
    let heal_variance := 1 + (1/5) * z.1
    let healing_amount := truncToZero (c.healing * heal_variance)
    (none, { c with health := min (c.health + healing_amount) c.max_health }, z.2)

/-- `TICK_LENGTH = 0.1` (line 44). -/
def TICK_LENGTH : ℚ := 1/10

/-- Which action branches of the loop body resolved, in program order. -/
inductive Event where
  | aAttack : Event
  | aHeal : Event
  | bAttack : Event
  | bHeal : Event
deriving DecidableEq

/-- State of one trial of the `while` loop (lines 54-90), plus the oracle,
the per-trial snapshot lists, and the write-only action trace. -/
structure SimState where
  a : Character
  b : Character
  rng : Rng
  current_time : ℚ
  tick_count : Nat
  snapsA : List ℤ
  snapsB : List ℤ
  trace : List Event

/-- Start of one trial (lines 51-55): fresh characters, time and tick 0. -/
def initState (pa pb : ArchetypeParams) (r : Rng) : SimState :=
  { a := Character.init "A" pa
    b := Character.init "B" pb
    rng := r
    current_time := 0
    tick_count := 0
    snapsA := []
    snapsB := []
    trace := [] }

/-- Lines 58-61: when health tracking is on, record both healths at the top of
the loop body, before any action of this tick resolves. -/
def snapshotPhase (track : Bool) (s : SimState) : SimState :=
  if track then
    { s with snapsA := s.snapsA ++ [s.a.health], snapsB := s.snapsB ++ [s.b.health] }
  else s

/-- Lines 65-68: if `a.time_until_attack <= 0`, A attacks, the damage is
subtracted from B's health, and A's attack timer is reset to its cooldown. -/
def phaseAattack (s : SimState) : SimState :=
  if s.a.time_until_attack ≤ 0 then
    let res := s.a.attack s.rng
    { s with
      a := { res.2.1 with time_until_attack := res.2.1.attack_cooldown }
      b := { s.b with health := s.b.health - res.1 }
      rng := res.2.2
      trace := s.trace ++ [Event.aAttack] }
  else s

/-- Lines 70-72: if `a.time_until_heal <= 0 and a.healing > 0`, A heals and
A's heal timer is reset to its cooldown. -/
def phaseAheal (s : SimState) : SimState :=
  if s.a.time_until_heal ≤ 0 ∧ 0 < s.a.healing then
    let res := s.a.heal s.rng
    { s with
      a := { res.2.1 with time_until_heal := res.2.1.healing_cooldown }
      rng := res.2.2
      trace := s.trace ++ [Event.aHeal] }
  else s

/-- Lines 75-78: B's attack, symmetric to A's. -/
def phaseBattack (s : SimState) : SimState :=
  if s.b.time_until_attack ≤ 0 then
    let res := s.b.attack s.rng
    { s with
      b := { res.2.1 with time_until_attack := res.2.1.attack_cooldown }
      a := { s.a with health := s.a.health - res.1 }
      rng := res.2.2
      trace := s.trace ++ [Event.bAttack] }
  else s

/-- Lines 80-82: B's heal, symmetric to A's. -/
def phaseBheal (s : SimState) : SimState :=
  if s.b.time_until_heal ≤ 0 ∧ 0 < s.b.healing then
    let res := s.b.heal s.rng
    { s with
      b := { res.2.1 with time_until_heal := res.2.1.healing_cooldown }
      rng := res.2.2
      trace := s.trace ++ [Event.bHeal] }
  else s

/-- Lines 84-90: advance time by one tick and decrement all four timers,
unconditionally. -/
def phaseTimers (s : SimState) : SimState :=
  { s with
    current_time := s.current_time + TICK_LENGTH
    tick_count := s.tick_count + 1
    a := { s.a with
           time_until_attack := s.a.time_until_attack - TICK_LENGTH
           time_until_heal := s.a.time_until_heal - TICK_LENGTH }
    b := { s.b with
           time_until_attack := s.b.time_until_attack - TICK_LENGTH
           time_until_heal := s.b.time_until_heal - TICK_LENGTH } }

/-- One full iteration of the loop body (lines 58-90). -/
def tickStep (track : Bool) (s : SimState) : SimState :=
  phaseTimers (phaseBheal (phaseBattack (phaseAheal (phaseAattack (snapshotPhase track s)))))

/-- The `while a.health > 0 and b.health > 0` loop (line 57), embedded with
fuel: `none` means the fuel ran out while the loop condition still held. -/
def runTrial (track : Bool) (fuel : Nat) (s : SimState) : Option SimState :=
  match fuel with
  | 0 => if 0 < s.a.health ∧ 0 < s.b.health then none else some s
  | f + 1 =>
    if 0 < s.a.health ∧ 0 < s.b.health then runTrial track f (tickStep track s)
    else some s

/-- Lines 92-98: award the trial to A iff `a.health > b.health and
a.health > 0`, else to B iff `b.health > a.health and b.health > 0`, else to
nobody. -/
def scoreTrial (wins_a wins_b : Nat) (ha hb : ℤ) : Nat × Nat :=
  if hb < ha ∧ 0 < ha then (wins_a + 1, wins_b)
  else if ha < hb ∧ 0 < hb then (wins_a, wins_b + 1)
  else (wins_a, wins_b)

/-- Accumulated state of the `for _ in range(num_matches)` loop: the two win
counters, the collected per-trial snapshot lists, and the oracle (the Python
`random` module is a single global stream threaded through all trials). -/
structure AggState where
  wins_a : Nat
  wins_b : Nat
  histsA : List (List ℤ)
  histsB : List (List ℤ)
  rng : Rng

/-- Lines 50-98: run `n` trials, scoring each and collecting its snapshot
lists.  `none` if some trial exhausts the fuel. -/
def runMatches (pa pb : ArchetypeParams) (track : Bool) (fuel : Nat) :
    Nat → AggState → Option AggState
  | 0, acc => some acc
  | n + 1, acc =>
    match runTrial track fuel (initState pa pb acc.rng) with
    | none => none
    | some s =>
      let w := scoreTrial acc.wins_a acc.wins_b s.a.health s.b.health
      runMatches pa pb track fuel n
        { wins_a := w.1
          wins_b := w.2
          histsA := acc.histsA ++ [s.snapsA]
          histsB := acc.histsB ++ [s.snapsB]
          rng := s.rng }

/-- Lines 100-106: `win_rate_a = (wins_a / (wins_a + wins_b)) * 100` when some
trial was decisive, else the neutral sentinel `50.0`. -/
def winRate (wins_a wins_b : Nat) : ℚ :=
  if 0 < wins_a + wins_b then ((wins_a : ℚ) / ((wins_a : ℚ) + (wins_b : ℚ))) * 100
  else 50

/-- The whole aggregation loop of `run_simulation`, from fresh counters. -/
def simCounts (pa pb : ArchetypeParams) (num_matches : Nat) (track : Bool)
    (fuel : Nat) (r : Rng) : Option AggState :=
  runMatches pa pb track fuel num_matches
    { wins_a := 0, wins_b := 0, histsA := [], histsB := [], rng := r }

/-- `run_simulation(char_a_params, char_b_params, num_matches)` with
`track_health=False` (lines 41-111): returns only the win rate. -/
def run_simulation (pa pb : ArchetypeParams) (num_matches : Nat) (fuel : Nat)
    (r : Rng) : Option ℚ :=
  (simCounts pa pb num_matches false fuel r).map (fun acc => winRate acc.wins_a acc.wins_b)

/-- `run_simulation(..., track_health=True)` (lines 108-109): returns the win
rate and both health histories. -/
def run_simulation_tracked (pa pb : ArchetypeParams) (num_matches : Nat)
    (fuel : Nat) (r : Rng) : Option (ℚ × List (List ℤ) × List (List ℤ)) :=
  (simCounts pa pb num_matches true fuel r).map
    (fun acc => (winRate acc.wins_a acc.wins_b, acc.histsA, acc.histsB))

/-- The sample list of one tick of the aggregate history
(`health_history[tick]` in the Python code): the snapshots, in trial order, of
every trial that reached this tick. -/
def samplesAt (hists : List (List ℤ)) (t : Nat) : List ℤ :=
  (hists.filter (fun h => t < h.length)).map (fun h => h.getD t 0)

/-- Largest trial length: one past the largest tick index holding a sample. -/
def maxLen (hists : List (List ℤ)) : Nat :=
  (hists.map List.length).foldr max 0

/-- The keys of the history dict in ascending order
(`ticks = sorted(health_history_a.keys())`, line 120): exactly the tick
indices holding at least one sample. -/
def presentTicks (hists : List (List ℤ)) : List Nat :=
  (List.range (maxLen hists)).filter (fun t => !(samplesAt hists t).isEmpty)

/-- Per-tick mean (lines 121-122): `sum(samples) / len(samples)`. -/
def avgAt (hists : List (List ℤ)) (t : Nat) : ℚ :=
  ((samplesAt hists t).sum : ℚ) / ((samplesAt hists t).length : ℚ)

/-- The averaged trajectory produced by `plot_average_health` (lines 119-122):
the per-tick means over the present ticks in ascending order. -/
def avgCurve (hists : List (List ℤ)) : List (Nat × ℚ) :=
  (presentTicks hists).map (fun t => (t, avgAt hists t))

/-! ### Concrete inputs used by witnesses and counterexamples -/

/-- Oracle whose every draw is `1/2`: every `random.random()` call returns
`0.5` (no miss) and every gauss standard-normal draw is `0.5`. -/
def halfRng : Rng := { stream := fun _ => 1/2, pos := 0 }

/-- Oracle whose every draw is `0`: every `random.random()` call returns `0`,
so every action misses. -/
def lowRng : Rng := { stream := fun _ => 0, pos := 0 }

/-- A heavy hitter: one non-missed attack exceeds any reasonable health. -/
def cexParamsA : ArchetypeParams :=
  { attack_power := 1000, health := 100, healing := 0, attack_cooldown := 1, healing_cooldown := 1 }

/-- A weak healer that the first attack of `cexParamsA` overkills. -/
def cexParamsB : ArchetypeParams :=
  { attack_power := 10, health := 10, healing := 5, attack_cooldown := 1, healing_cooldown := 1 }

/-- Initial state of a `cexParamsA` vs `cexParamsB` trial under `halfRng`. -/
def cexInit : SimState := initState cexParamsA cexParamsB halfRng

/-- The aggregate state after `run_simulation cexParamsA cexParamsB 1`:
the single trial ends after one tick with healths `86` vs `-989`, a decisive
win for A; six draws were consumed. -/
def cexAcc : AggState :=
  { wins_a := 1, wins_b := 0, histsA := [[]], histsB := [[]]
    rng := { stream := fun _ => 1/2, pos := 6 } }

/-- Parameters violating every validation rule of the spec: negative
attack_power, health and healing, non-positive cooldowns. -/
def invalidParams : ArchetypeParams :=
  { attack_power := -5, health := -3, healing := -2, attack_cooldown := 0, healing_cooldown := -1 }

/-- A combatant with zero health, as at a loop-condition check after a lethal
tick. -/
def deadChar : Character :=
  { name := "D", attack_power := 1, healing := 0, max_health := 5, health := 0
    attack_cooldown := 1, healing_cooldown := 1, time_until_attack := 0, time_until_heal := 0 }

/-- Trial state whose combatant A is already at health 0. -/
def deadState : SimState :=
  { a := deadChar, b := deadChar, rng := halfRng, current_time := 0, tick_count := 0
    snapsA := [], snapsB := [], trace := [] }

/-- A combatant at negative health (reachable mid-tick after an overkill) with
nonzero healing. -/
def healChar : Character :=
  { name := "H", attack_power := 1, healing := 5, max_health := 10, health := -10
    attack_cooldown := 1, healing_cooldown := 1, time_until_attack := 0, time_until_heal := 0 }

/-- A combatant with `healing == 0` whose heal timer is about to be consulted. -/
def zeroHealChar : Character :=
  { name := "Z", attack_power := 3, healing := 0, max_health := 50, health := 50
    attack_cooldown := 1, healing_cooldown := 1, time_until_attack := 0, time_until_heal := 0 }

/-- Trial state of two `zeroHealChar`s at the top of their first tick. -/
def zeroHealState : SimState :=
  { a := zeroHealChar, b := zeroHealChar, rng := halfRng, current_time := 0, tick_count := 0
    snapsA := [], snapsB := [], trace := [] }

/-! ### Helper lemmas: what each action and phase leaves untouched -/

@[simp]
theorem attack_char (c : Character) (r : Rng) : (c.attack r).2.1 = c := by
  unfold Character.attack
  dsimp only
  split <;> rfl

theorem heal_char (c : Character) (r : Rng) :
    (c.heal r).2.1 = { c with health := (c.heal r).2.1.health } := by
  unfold Character.heal
  dsimp only
  split <;> rfl

@[simp]
theorem heal_healing (c : Character) (r : Rng) : (c.heal r).2.1.healing = c.healing := by
  unfold Character.heal
  dsimp only
  split <;> rfl

@[simp]
theorem heal_time_until_attack (c : Character) (r : Rng) :
    (c.heal r).2.1.time_until_attack = c.time_until_attack := by
  unfold Character.heal
  dsimp only
  split <;> rfl

@[simp]
theorem heal_time_until_heal (c : Character) (r : Rng) :
    (c.heal r).2.1.time_until_heal = c.time_until_heal := by
  unfold Character.heal
  dsimp only
  split <;> rfl

@[simp]
theorem heal_max_health (c : Character) (r : Rng) :
    (c.heal r).2.1.max_health = c.max_health := by
  unfold Character.heal
  dsimp only
  split <;> rfl

@[simp]
theorem heal_healing_cooldown (c : Character) (r : Rng) :
    (c.heal r).2.1.healing_cooldown = c.healing_cooldown := by
  unfold Character.heal
  dsimp only
  split <;> rfl

@[simp]
theorem heal_attack_cooldown (c : Character) (r : Rng) :
    (c.heal r).2.1.attack_cooldown = c.attack_cooldown := by
  unfold Character.heal
  dsimp only
  split <;> rfl

@[simp]
theorem snapshotPhase_a (track : Bool) (s : SimState) : (snapshotPhase track s).a = s.a := by
  unfold snapshotPhase
  split <;> rfl

@[simp]
theorem snapshotPhase_b (track : Bool) (s : SimState) : (snapshotPhase track s).b = s.b := by
  unfold snapshotPhase
  split <;> rfl

@[simp]
theorem snapshotPhase_rng (track : Bool) (s : SimState) : (snapshotPhase track s).rng = s.rng := by
  unfold snapshotPhase
  split <;> rfl

@[simp]
theorem snapshotPhase_trace (track : Bool) (s : SimState) :
    (snapshotPhase track s).trace = s.trace := by
  unfold snapshotPhase
  split <;> rfl

@[simp]
theorem phaseAattack_a_health (s : SimState) : (phaseAattack s).a.health = s.a.health := by
  unfold phaseAattack
  split <;> simp

@[simp]
theorem phaseAattack_a_time_until_heal (s : SimState) :
    (phaseAattack s).a.time_until_heal = s.a.time_until_heal := by
  unfold phaseAattack
  split <;> simp

@[simp]
theorem phaseAattack_a_healing (s : SimState) : (phaseAattack s).a.healing = s.a.healing := by
  unfold phaseAattack
  split <;> simp

@[simp]
theorem phaseAattack_a_healing_cooldown (s : SimState) :
    (phaseAattack s).a.healing_cooldown = s.a.healing_cooldown := by
  unfold phaseAattack
  split <;> simp

@[simp]
theorem phaseAattack_b_time_until_attack (s : SimState) :
    (phaseAattack s).b.time_until_attack = s.b.time_until_attack := by
  unfold phaseAattack
  split <;> rfl

@[simp]
theorem phaseAattack_b_time_until_heal (s : SimState) :
    (phaseAattack s).b.time_until_heal = s.b.time_until_heal := by
  unfold phaseAattack
  split <;> rfl

@[simp]
theorem phaseAattack_b_healing (s : SimState) : (phaseAattack s).b.healing = s.b.healing := by
  unfold phaseAattack
  split <;> rfl

@[simp]
theorem phaseAheal_b (s : SimState) : (phaseAheal s).b = s.b := by
  unfold phaseAheal
  split <;> rfl

@[simp]
theorem phaseAheal_a_time_until_attack (s : SimState) :
    (phaseAheal s).a.time_until_attack = s.a.time_until_attack := by
  unfold phaseAheal
  split <;> simp

@[simp]
theorem phaseAheal_a_healing (s : SimState) : (phaseAheal s).a.healing = s.a.healing := by
  unfold phaseAheal
  split <;> simp

@[simp]
theorem phaseBattack_a_time_until_heal (s : SimState) :
    (phaseBattack s).a.time_until_heal = s.a.time_until_heal := by
  unfold phaseBattack
  split <;> rfl

@[simp]
theorem phaseBattack_b_time_until_heal (s : SimState) :
    (phaseBattack s).b.time_until_heal = s.b.time_until_heal := by
  unfold phaseBattack
  split <;> simp

@[simp]
theorem phaseBattack_b_healing (s : SimState) : (phaseBattack s).b.healing = s.b.healing := by
  unfold phaseBattack
  split <;> simp

@[simp]
theorem phaseBattack_b_health (s : SimState) : (phaseBattack s).b.health = s.b.health := by
  unfold phaseBattack
  split <;> simp

@[simp]
theorem phaseBheal_a (s : SimState) : (phaseBheal s).a = s.a := by
  unfold phaseBheal
  split <;> rfl

@[simp]
theorem phaseTimers_a_time_until_heal (s : SimState) :
    (phaseTimers s).a.time_until_heal = s.a.time_until_heal - TICK_LENGTH := rfl

@[simp]
theorem phaseTimers_b_time_until_heal (s : SimState) :
    (phaseTimers s).b.time_until_heal = s.b.time_until_heal - TICK_LENGTH := rfl

@[simp]
theorem phaseTimers_trace (s : SimState) : (phaseTimers s).trace = s.trace := rfl

@[simp]
theorem phaseTimers_a_health (s : SimState) : (phaseTimers s).a.health = s.a.health := rfl

@[simp]
theorem phaseTimers_b_health (s : SimState) : (phaseTimers s).b.health = s.b.health := rfl

theorem runTrial_terminal (track : Bool) (fuel : Nat) (s : SimState)
    (h : ¬(0 < s.a.health ∧ 0 < s.b.health)) : runTrial track fuel s = some s := by
  cases fuel <;> simp [runTrial, h]

theorem runTrial_step (track : Bool) (fuel : Nat) (s : SimState)
    (h1 : 0 < s.a.health) (h2 : 0 < s.b.health) :
    runTrial track (fuel + 1) s = runTrial track fuel (tickStep track s) := by
  simp [runTrial, h1, h2]

theorem phaseAattack_trace (s : SimState) :
    (phaseAattack s).trace =
      s.trace ++ (if s.a.time_until_attack ≤ 0 then [Event.aAttack] else []) := by
  unfold phaseAattack
  split <;> simp_all

theorem phaseAheal_trace (s : SimState) :
    (phaseAheal s).trace =
      s.trace ++ (if s.a.time_until_heal ≤ 0 ∧ 0 < s.a.healing then [Event.aHeal] else []) := by
  unfold phaseAheal
  split <;> simp_all

theorem phaseBattack_trace (s : SimState) :
    (phaseBattack s).trace =
      s.trace ++ (if s.b.time_until_attack ≤ 0 then [Event.bAttack] else []) := by
  unfold phaseBattack
  split <;> simp_all

theorem phaseBheal_trace (s : SimState) :
    (phaseBheal s).trace =
      s.trace ++ (if s.b.time_until_heal ≤ 0 ∧ 0 < s.b.healing then [Event.bHeal] else []) := by
  unfold phaseBheal
  split <;> simp_all

theorem phaseAheal_not (s : SimState) (h : ¬(s.a.time_until_heal ≤ 0 ∧ 0 < s.a.healing)) :
    phaseAheal s = s := by
  unfold phaseAheal
  exact if_neg h

theorem phaseBheal_not (s : SimState) (h : ¬(s.b.time_until_heal ≤ 0 ∧ 0 < s.b.healing)) :
    phaseBheal s = s := by
  unfold phaseBheal
  exact if_neg h

theorem phaseAheal_fires (s : SimState) (h : s.a.time_until_heal ≤ 0 ∧ 0 < s.a.healing) :
    (phaseAheal s).a.time_until_heal = s.a.healing_cooldown ∧
      (phaseAheal s).trace = s.trace ++ [Event.aHeal] := by
  unfold phaseAheal
  rw [if_pos h]
  simp

theorem phaseBheal_fires (s : SimState) (h : s.b.time_until_heal ≤ 0 ∧ 0 < s.b.healing) :
    (phaseBheal s).b.time_until_heal = s.b.healing_cooldown ∧
      (phaseBheal s).trace = s.trace ++ [Event.bHeal] := by
  unfold phaseBheal
  rw [if_pos h]
  simp

/-- The actions one tick resolves, stated in the entering state: both action
conditions of a combatant are evaluated on fields that no earlier phase of the
same tick modifies. -/
theorem tickStep_trace (track : Bool) (s : SimState) :
    (tickStep track s).trace =
      s.trace
        ++ (if s.a.time_until_attack ≤ 0 then [Event.aAttack] else [])
        ++ (if s.a.time_until_heal ≤ 0 ∧ 0 < s.a.healing then [Event.aHeal] else [])
        ++ (if s.b.time_until_attack ≤ 0 then [Event.bAttack] else [])
        ++ (if s.b.time_until_heal ≤ 0 ∧ 0 < s.b.healing then [Event.bHeal] else []) := by
  simp [tickStep, phaseAattack_trace, phaseAheal_trace, phaseBattack_trace, phaseBheal_trace,
    List.append_assoc]

theorem winRate_zero (wa wb : Nat) (h : wa + wb = 0) : winRate wa wb = 50 := by
  rw [winRate, if_neg (by omega)]

theorem winRate_eq_of_pos (wa wb : Nat) (h : 0 < wa + wb) :
    winRate wa wb = 100 * (wa : ℚ) / ((wa : ℚ) + (wb : ℚ)) := by
  rw [winRate, if_pos h]
  ring

theorem winRate_nonneg (wa wb : Nat) : 0 ≤ winRate wa wb := by
  rw [winRate]
  split
  · positivity
  · norm_num

theorem winRate_le_100 (wa wb : Nat) : winRate wa wb ≤ 100 := by
  rw [winRate]
  split
  · rename_i h
    have hs : (0 : ℚ) < (wa : ℚ) + (wb : ℚ) := by
      have : (0 : ℚ) < ((wa + wb : Nat) : ℚ) := by exact_mod_cast h
      push_cast at this
      linarith
    have h1 : (wa : ℚ) / ((wa : ℚ) + (wb : ℚ)) ≤ 1 := by
      rw [div_le_one hs]
      have : (0 : ℚ) ≤ (wb : ℚ) := by positivity
      linarith
    calc (wa : ℚ) / ((wa : ℚ) + (wb : ℚ)) * 100 ≤ 1 * 100 := by
          apply mul_le_mul_of_nonneg_right h1
          norm_num
      _ = 100 := by norm_num
  · norm_num

theorem runMatches_zero (pa pb : ArchetypeParams) (track : Bool) (fuel : Nat) (acc : AggState) :
    runMatches pa pb track fuel 0 acc = some acc := rfl

theorem runMatches_succ_some (pa pb : ArchetypeParams) (track : Bool) (fuel n : Nat)
    (acc : AggState) (s : SimState)
    (h : runTrial track fuel (initState pa pb acc.rng) = some s) :
    runMatches pa pb track fuel (n + 1) acc =
      runMatches pa pb track fuel n
        { wins_a := (scoreTrial acc.wins_a acc.wins_b s.a.health s.b.health).1
          wins_b := (scoreTrial acc.wins_a acc.wins_b s.a.health s.b.health).2
          histsA := acc.histsA ++ [s.snapsA]
          histsB := acc.histsB ++ [s.snapsB]
          rng := s.rng } := by
  rw [runMatches, h]

/-! ### Claim theorems -/

/-- C1: whenever `run_simulation` completes over its trials with decisive
counts `wins_a` and `wins_b`, the returned win rate is
`100 * wins_a / (wins_a + wins_b)` when `wins_a + wins_b > 0`, exactly `50`
when `wins_a + wins_b = 0` (a sentinel value, not an error), and lies in
`[0, 100]` in both cases. -/
theorem run_simulation_winRate_correct (pa pb : ArchetypeParams) (n fuel : Nat) (r : Rng)
    (wr : ℚ) (h : run_simulation pa pb n fuel r = some wr) :
    ∃ acc : AggState, simCounts pa pb n false fuel r = some acc ∧
      wr = winRate acc.wins_a acc.wins_b ∧
      (0 < acc.wins_a + acc.wins_b →
        wr = 100 * (acc.wins_a : ℚ) / ((acc.wins_a : ℚ) + (acc.wins_b : ℚ))) ∧
      (acc.wins_a + acc.wins_b = 0 → wr = 50) ∧
      0 ≤ wr ∧ wr ≤ 100 := by
  rw [run_simulation, Option.map_eq_some'] at h
  obtain ⟨acc, hacc, hwr⟩ := h
  refine ⟨acc, hacc, hwr.symm, ?_, ?_, ?_, ?_⟩
  · intro hp
    rw [← hwr]
    exact winRate_eq_of_pos _ _ hp
  · intro h0
    rw [← hwr]
    exact winRate_zero _ _ h0
  · rw [← hwr]
    exact winRate_nonneg _ _
  · rw [← hwr]
    exact winRate_le_100 _ _

theorem run_simulation_winRate_correct_witness :
    ∃ acc : AggState, simCounts cexParamsA cexParamsB 1 false 1 halfRng = some acc ∧
      (100 : ℚ) = winRate acc.wins_a acc.wins_b ∧
      (0 < acc.wins_a + acc.wins_b →
        (100 : ℚ) = 100 * (acc.wins_a : ℚ) / ((acc.wins_a : ℚ) + (acc.wins_b : ℚ))) ∧
      (acc.wins_a + acc.wins_b = 0 → (100 : ℚ) = 50) ∧
      (0 : ℚ) ≤ 100 ∧ (100 : ℚ) ≤ 100 :=
  run_simulation_winRate_correct cexParamsA cexParamsB 1 1 halfRng 100 (by
    norm_num [run_simulation, simCounts, runMatches, runTrial, winRate, scoreTrial, tickStep,
      initState, Character.init, cexParamsA, cexParamsB, halfRng, phaseAattack, phaseAheal,
      phaseBattack, phaseBheal, phaseTimers, snapshotPhase, Character.attack, Character.heal,
      Rng.next, truncToZero, TICK_LENGTH])

/-- C3: the claim says invalid parameters (non-positive cooldown, negative
attack_power, health or healing, non-positive trial count) raise a validation
error before any trial begins.  The code performs no validation at all: with
every one of those violated at once, `run_simulation` runs normally and
returns the `50.0` sentinel, both for zero trials and for one trial. -/
theorem run_simulation_no_validation :
    run_simulation invalidParams invalidParams 0 0 halfRng = some 50 ∧
    run_simulation invalidParams invalidParams 1 0 halfRng = some 50 := by
  constructor <;>
    norm_num [run_simulation, simCounts, runMatches, runTrial, winRate, scoreTrial,
      initState, Character.init, invalidParams, halfRng]

/-- C6: `attack()` returns `0` exactly when its uniform draw is below the miss
probability `0.05 = 1/20`; otherwise it returns the Gaussian draw centred at
`attack_power` with standard deviation `8` (one standard-normal draw `z` gives
`attack_power + 8 * z`), truncated toward zero and clamped to be non-negative,
with no upper cap; it never modifies any health field — the trial loop
subtracts the returned damage from the opponent's health. -/
theorem attack_spec (c : Character) (r : Rng) :
    (c.attack r).2.1 = c ∧
    (r.stream r.pos < 1/20 → (c.attack r).1 = 0) ∧
    (¬(r.stream r.pos < 1/20) →
      (c.attack r).1 = max 0 (truncToZero (c.attack_power + 8 * r.stream (r.pos + 1)))) ∧
    (∀ s : SimState, s.a.time_until_attack ≤ 0 →
      (phaseAattack s).b.health = s.b.health - (s.a.attack s.rng).1) ∧
    (∀ s : SimState, s.b.time_until_attack ≤ 0 →
      (phaseBattack s).a.health = s.a.health - (s.b.attack s.rng).1) := by
  refine ⟨attack_char c r, ?_, ?_, ?_, ?_⟩
  · intro h
    unfold Character.attack
    dsimp only [Rng.next]
    rw [if_pos h]
  · intro h
    unfold Character.attack
    dsimp only [Rng.next]
    rw [if_neg h]
  · intro s h
    unfold phaseAattack
    rw [if_pos h]
  · intro s h
    unfold phaseBattack
    rw [if_pos h]

theorem attack_spec_witness : (healChar.attack lowRng).1 = 0 :=
  (attack_spec healChar lowRng).2.1 (by norm_num [lowRng])

/-- C7: a heal that misses (uniform draw below `1/20`) leaves health unchanged
and returns the pre-heal health; otherwise the multiplicative noise factor is
the Gaussian draw centred at `1` with standard deviation `0.2` (one
standard-normal draw `z` gives `1 + z/5`), it is multiplied by the base
`healing`, truncated toward zero, added to the current health, and health is
set to the minimum of that sum and `max_health`, mutating only the health
field (Python returns `None` here). -/
theorem heal_spec (c : Character) (r : Rng) :
    (r.stream r.pos < 1/20 →
      (c.heal r).2.1 = c ∧ (c.heal r).1 = some c.health) ∧
    (¬(r.stream r.pos < 1/20) →
      (c.heal r).2.1 =
        { c with health := min (c.health + truncToZero (c.healing * (1 + (1/5) * r.stream (r.pos + 1)))) c.max_health } ∧
      (c.heal r).1 = none) := by
  constructor <;> intro h <;> unfold Character.heal <;> dsimp only [Rng.next]
  · rw [if_pos h]
    exact ⟨rfl, rfl⟩
  · rw [if_neg h]
    exact ⟨rfl, rfl⟩

theorem heal_spec_witness :
    (healChar.heal lowRng).2.1 = healChar ∧ (healChar.heal lowRng).1 = some healChar.health :=
  (heal_spec healChar lowRng).1 (by norm_num [lowRng])

/-- C5 counterexample: in a reachable trial state (`cexParamsA` vs
`cexParamsB` under `halfRng`, within the first tick, after A's overkill attack
and B's attack), B's heal resolves (the trace records it) and leaves B's
health at `-989`, which does not lie in `[0, max_health]`.  The heal of the
source clamps only from above. -/
theorem heal_no_lower_clamp :
    (phaseBheal (phaseBattack (phaseAheal (phaseAattack cexInit)))).trace
      = [Event.aAttack, Event.bAttack, Event.bHeal] ∧
    (phaseBheal (phaseBattack (phaseAheal (phaseAattack cexInit)))).b.health = -989 ∧
    ¬(0 ≤ (phaseBheal (phaseBattack (phaseAheal (phaseAattack cexInit)))).b.health) := by
  refine ⟨?_, ?_, ?_⟩ <;>
    norm_num [cexInit, initState, Character.init, cexParamsA, cexParamsB, halfRng, phaseAattack,
      phaseAheal, phaseBattack, phaseBheal, Character.attack, Character.heal, Rng.next,
      truncToZero]

/-- C5 (amended): a heal that misses leaves health unchanged; a heal that
resolves clamps health from above by `max_health`.  There is no lower clamp at
`0`: a heal applied at negative health can leave health negative. -/
theorem heal_upper_clamp_only (c : Character) (r : Rng) :
    (r.stream r.pos < 1/20 → (c.heal r).2.1.health = c.health) ∧
    (¬(r.stream r.pos < 1/20) → (c.heal r).2.1.health ≤ c.max_health) := by
  constructor <;> intro h <;> unfold Character.heal <;> dsimp only [Rng.next]
  · rw [if_pos h]
  · rw [if_neg h]
    exact min_le_right _ _

theorem heal_upper_clamp_only_witness :
    (healChar.heal halfRng).2.1.health ≤ healChar.max_health :=
  (heal_upper_clamp_only healChar halfRng).2 (by norm_num [halfRng])

theorem scoreTrial_sum_le (wa wb : Nat) (ha hb : ℤ) :
    (scoreTrial wa wb ha hb).1 + (scoreTrial wa wb ha hb).2 ≤ wa + wb + 1 := by
  unfold scoreTrial
  split_ifs <;> simp <;> omega

theorem runMatches_bound (pa pb : ArchetypeParams) (track : Bool) (fuel : Nat) :
    ∀ (n : Nat) (acc acc' : AggState),
      runMatches pa pb track fuel n acc = some acc' →
      acc'.wins_a + acc'.wins_b ≤ acc.wins_a + acc.wins_b + n ∧
      acc'.histsA.length = acc.histsA.length + n ∧
      acc'.histsB.length = acc.histsB.length + n := by
  intro n
  induction n with
  | zero =>
    intro acc acc' h
    rw [runMatches_zero] at h
    cases h
    simp
  | succ n ih =>
    intro acc acc' h
    rw [runMatches] at h
    cases htrial : runTrial track fuel (initState pa pb acc.rng) with
    | none => rw [htrial] at h; cases h
    | some s =>
      rw [htrial] at h
      obtain ⟨h1, h2, h3⟩ := ih _ _ h
      have hsc := scoreTrial_sum_le acc.wins_a acc.wins_b s.a.health s.b.health
      dsimp only at h1 h2 h3
      simp only [List.length_append, List.length_cons, List.length_nil] at h2 h3
      refine ⟨by omega, by omega, by omega⟩

/-- C2: a completed trial increments A's counter iff
`health_a > health_b and health_a > 0`, B's counter iff
`health_b > health_a and health_b > 0` (the conditions are mutually
exclusive, so the `elif` of the source equals the two independent rules);
every other outcome increments neither, so each trial adds at most one win and
`wins_a + wins_b` never exceeds the trial count. -/
theorem trial_scoring_correct :
    (∀ (wa wb : Nat) (ha hb : ℤ),
        scoreTrial wa wb ha hb =
          (wa + (if hb < ha ∧ 0 < ha then 1 else 0),
           wb + (if ha < hb ∧ 0 < hb then 1 else 0))) ∧
    (∀ ha hb : ℤ, ¬((hb < ha ∧ 0 < ha) ∧ (ha < hb ∧ 0 < hb))) ∧
    (∀ (pa pb : ArchetypeParams) (n : Nat) (track : Bool) (fuel : Nat) (r : Rng)
        (acc : AggState), simCounts pa pb n track fuel r = some acc →
        acc.wins_a + acc.wins_b ≤ n) := by
  refine ⟨?_, ?_, ?_⟩
  · intro wa wb ha hb
    unfold scoreTrial
    split_ifs <;> first | (exfalso; omega) | simp
  · intro ha hb
    omega
  · intro pa pb n track fuel r acc h
    rw [simCounts] at h
    have := (runMatches_bound pa pb track fuel n _ acc h).1
    simpa using this

theorem trial_scoring_correct_witness : cexAcc.wins_a + cexAcc.wins_b ≤ 1 :=
  trial_scoring_correct.2.2 cexParamsA cexParamsB 1 false 1 halfRng cexAcc (by
    norm_num [simCounts, runMatches, runTrial, scoreTrial, tickStep, cexAcc,
      initState, Character.init, cexParamsA, cexParamsB, halfRng, phaseAattack, phaseAheal,
      phaseBattack, phaseBheal, phaseTimers, snapshotPhase, Character.attack, Character.heal,
      Rng.next, truncToZero, TICK_LENGTH])

/-- C4 counterexample: the claim says a combatant brought to health ≤ 0 never
again attacks or heals before the loop terminates.  In the first tick of a
`cexParamsA` vs `cexParamsB` trial under `halfRng`, A's attack leaves B at
`-994 ≤ 0`, yet the very same tick's trace still records B's attack and B's
heal, and B's attack lowers A's health from `100` to `86`. -/
theorem dead_combatant_acts_same_tick :
    (phaseAattack cexInit).b.health = -994 ∧
    ¬(0 < (phaseAattack cexInit).b.health) ∧
    (tickStep false cexInit).trace = [Event.aAttack, Event.bAttack, Event.bHeal] ∧
    (tickStep false cexInit).a.health = 86 := by
  refine ⟨?_, ?_, ?_, ?_⟩ <;>
    norm_num [cexInit, initState, Character.init, cexParamsA, cexParamsB, halfRng, tickStep,
      phaseAattack, phaseAheal, phaseBattack, phaseBheal, phaseTimers, snapshotPhase,
      Character.attack, Character.heal, Rng.next, truncToZero, TICK_LENGTH]

/-- C4 (amended): a combatant whose health is ≤ 0 when the loop condition is
checked (the top of each iteration) takes no further action: the trial
returns at once with the state — in particular the action trace — unchanged.
Within the tick in which health drops to ≤ 0, however, the dying combatant
still performs its scheduled actions (see the counterexample). -/
theorem terminal_check_at_loop_top (track : Bool) (fuel : Nat) (s : SimState)
    (h : s.a.health ≤ 0 ∨ s.b.health ≤ 0) :
    runTrial track fuel s = some s := by
  apply runTrial_terminal
  rcases h with h | h
  · exact fun hc => absurd hc.1 (not_lt.mpr h)
  · exact fun hc => absurd hc.2 (not_lt.mpr h)

theorem terminal_check_at_loop_top_witness : runTrial false 3 deadState = some deadState :=
  terminal_check_at_loop_top false 3 deadState (Or.inl (by norm_num [deadState, deadChar]))

/-- C8 counterexample: the claim says a combatant with `healing == 0` never
has its heal timer changed by the trial loop.  For `zeroHealState` (both
combatants have `healing = 0` and heal timer `0`), one tick decrements A's
heal timer to `-1/10`: the end-of-tick timer update applies to every
combatant unconditionally. -/
theorem heal_timer_changed_when_healing_zero :
    zeroHealState.a.healing = 0 ∧
    (tickStep false zeroHealState).a.time_until_heal = -(1/10) ∧
    (tickStep false zeroHealState).a.time_until_heal ≠ zeroHealState.a.time_until_heal := by
  refine ⟨?_, ?_, ?_⟩ <;>
    norm_num [zeroHealState, zeroHealChar, tickStep, phaseAattack, phaseAheal, phaseBattack,
      phaseBheal, phaseTimers, snapshotPhase, Character.attack, Character.heal, Rng.next,
      truncToZero, TICK_LENGTH, halfRng]

/-- C8 (amended): in every tick a combatant resolves a heal and has its heal
timer reset to `healing_cooldown` exactly when `time_until_heal ≤ 0` and
`healing > 0` hold at its heal phase; a combatant with `healing == 0` never
resolves a heal and never has its heal timer reset, but the end-of-tick timer
update still decrements its `time_until_heal` by one tick length. -/
theorem heal_resolution_condition (track : Bool) (s : SimState) :
    ((s.a.time_until_heal ≤ 0 ∧ 0 < s.a.healing) →
      (phaseAheal s).a.time_until_heal = s.a.healing_cooldown ∧
      (phaseAheal s).trace = s.trace ++ [Event.aHeal]) ∧
    (¬(s.a.time_until_heal ≤ 0 ∧ 0 < s.a.healing) → phaseAheal s = s) ∧
    ((s.b.time_until_heal ≤ 0 ∧ 0 < s.b.healing) →
      (phaseBheal s).b.time_until_heal = s.b.healing_cooldown ∧
      (phaseBheal s).trace = s.trace ++ [Event.bHeal]) ∧
    (¬(s.b.time_until_heal ≤ 0 ∧ 0 < s.b.healing) → phaseBheal s = s) ∧
    (s.a.healing = 0 →
      phaseAheal s = s ∧
      (tickStep track s).a.time_until_heal = s.a.time_until_heal - TICK_LENGTH) ∧
    (s.b.healing = 0 →
      phaseBheal s = s ∧
      (tickStep track s).b.time_until_heal = s.b.time_until_heal - TICK_LENGTH) := by
  refine ⟨phaseAheal_fires s, phaseAheal_not s, phaseBheal_fires s, phaseBheal_not s, ?_, ?_⟩
  · intro h0
    have hya : (phaseAattack (snapshotPhase track s)).a.healing = 0 := by simp [h0]
    have hy : phaseAheal (phaseAattack (snapshotPhase track s))
        = phaseAattack (snapshotPhase track s) :=
      phaseAheal_not _ (fun hc => by rw [hya] at hc; exact lt_irrefl 0 hc.2)
    refine ⟨phaseAheal_not s (fun hc => by rw [h0] at hc; exact lt_irrefl 0 hc.2), ?_⟩
    rw [tickStep, phaseTimers_a_time_until_heal, phaseBheal_a]
    rw [phaseBattack_a_time_until_heal, hy]
    simp
  · intro h0
    have hyb : (phaseBattack (phaseAheal (phaseAattack (snapshotPhase track s)))).b.healing = 0 := by
      simp [h0]
    have hy : phaseBheal (phaseBattack (phaseAheal (phaseAattack (snapshotPhase track s))))
        = phaseBattack (phaseAheal (phaseAattack (snapshotPhase track s))) :=
      phaseBheal_not _ (fun hc => by rw [hyb] at hc; exact lt_irrefl 0 hc.2)
    refine ⟨phaseBheal_not s (fun hc => by rw [h0] at hc; exact lt_irrefl 0 hc.2), ?_⟩
    rw [tickStep, phaseTimers_b_time_until_heal, hy]
    simp

theorem heal_resolution_condition_witness :
    phaseAheal zeroHealState = zeroHealState ∧
    (tickStep false zeroHealState).a.time_until_heal
      = zeroHealState.a.time_until_heal - TICK_LENGTH :=
  (heal_resolution_condition false zeroHealState).2.2.2.2.1 (by
    norm_num [zeroHealState, zeroHealChar])

theorem length_le_maxLen {l : List ℤ} {hists : List (List ℤ)} (h : l ∈ hists) :
    l.length ≤ maxLen hists := by
  induction hists with
  | nil => cases h
  | cons hd tl ih =>
    simp only [maxLen, List.map_cons, List.foldr_cons]
    rcases List.mem_cons.mp h with rfl | hmem
    · exact le_max_left _ _
    · exact le_trans (by simpa [maxLen] using ih hmem) (le_max_right _ _)

theorem samplesAt_ne_nil_iff (hists : List (List ℤ)) (t : Nat) :
    samplesAt hists t ≠ [] ↔ ∃ l ∈ hists, t < l.length := by
  rw [samplesAt, Ne, List.map_eq_nil_iff]
  constructor
  · intro h
    obtain ⟨x, hx⟩ := List.exists_mem_of_ne_nil _ h
    rw [List.mem_filter] at hx
    exact ⟨x, hx.1, by simpa using hx.2⟩
  · rintro ⟨l, hl, hlt⟩ h
    have hmem : l ∈ hists.filter (fun h => t < h.length) :=
      List.mem_filter.mpr ⟨hl, by simpa using hlt⟩
    rw [h] at hmem
    cases hmem

theorem samplesAt_length (hists : List (List ℤ)) (t : Nat) :
    (samplesAt hists t).length = hists.countP (fun h => t < h.length) := by
  rw [samplesAt, List.length_map, List.countP_eq_length_filter]

/-- C9: the per-tick sample count is the number of trials that reached that
tick (so later ticks never have more samples than earlier ones); the
summarizer divides each tick's sample sum by the number of samples actually
present at that tick — not by the trial count; its output ranges over the
present tick indices in strictly ascending order, and a tick with zero
samples is absent from it; with health tracking, the aggregator collects
exactly one snapshot list per trial. -/
theorem trajectory_summarizer_spec :
    (∀ (hists : List (List ℤ)) (t : Nat),
        (samplesAt hists t).length = hists.countP (fun h => t < h.length)) ∧
    (∀ (hists : List (List ℤ)) (t u : Nat), t ≤ u →
        (samplesAt hists u).length ≤ (samplesAt hists t).length) ∧
    (∀ hists : List (List ℤ),
        avgCurve hists = (presentTicks hists).map
          (fun t => (t, ((samplesAt hists t).sum : ℚ) / ((samplesAt hists t).length : ℚ)))) ∧
    (∀ hists : List (List ℤ), (presentTicks hists).Pairwise (fun x y => x < y)) ∧
    (∀ (hists : List (List ℤ)) (t : Nat), t ∈ presentTicks hists ↔ samplesAt hists t ≠ []) ∧
    (∀ (pa pb : ArchetypeParams) (n fuel : Nat) (r : Rng)
        (res : ℚ × List (List ℤ) × List (List ℤ)),
        run_simulation_tracked pa pb n fuel r = some res →
        res.2.1.length = n ∧ res.2.2.length = n) := by
  refine ⟨samplesAt_length, ?_, ?_, ?_, ?_, ?_⟩
  · intro hists t u htu
    rw [samplesAt_length, samplesAt_length]
    apply List.countP_mono_left
    intro l _ hl
    simp only [decide_eq_true_eq] at hl ⊢
    omega
  · intro hists
    rfl
  · intro hists
    exact List.Pairwise.filter _ (List.pairwise_lt_range _)
  · intro hists t
    rw [presentTicks, List.mem_filter, List.mem_range]
    constructor
    · rintro ⟨-, h⟩
      simpa [List.isEmpty_iff] using h
    · intro h
      obtain ⟨l, hl, hlt⟩ := (samplesAt_ne_nil_iff hists t).mp h
      exact ⟨lt_of_lt_of_le hlt (length_le_maxLen hl), by simpa [List.isEmpty_iff] using h⟩
  · intro pa pb n fuel r res h
    rw [run_simulation_tracked, Option.map_eq_some'] at h
    obtain ⟨acc, hacc, hres⟩ := h
    rw [simCounts] at hacc
    have hb := runMatches_bound pa pb true fuel n _ acc hacc
    rw [← hres]
    exact ⟨by simpa using hb.2.1, by simpa using hb.2.2⟩

theorem trajectory_summarizer_spec_witness :
    (samplesAt [[100, 90], [100]] 1).length ≤ (samplesAt [[100, 90], [100]] 0).length :=
  trajectory_summarizer_spec.2.1 [[100, 90], [100]] 0 1 (by norm_num)

/-- C10: both combatants are created with `time_until_attack = 0` and
`time_until_heal = 0`, and the first tick of a trial starts at time `0`;
hence in that first tick — before any cooldown time has elapsed — both
combatants attack, and each combatant with `healing > 0` also heals; when
both starting healths are positive, the trial's first loop iteration is
exactly this tick. -/
theorem first_tick_actions (pa pb : ArchetypeParams) (r : Rng) (track : Bool) :
    (Character.init "A" pa).time_until_attack = 0 ∧
    (Character.init "A" pa).time_until_heal = 0 ∧
    (Character.init "B" pb).time_until_attack = 0 ∧
    (Character.init "B" pb).time_until_heal = 0 ∧
    (initState pa pb r).current_time = 0 ∧
    (tickStep track (initState pa pb r)).trace =
      [Event.aAttack] ++ (if 0 < pa.healing then [Event.aHeal] else [])
        ++ [Event.bAttack] ++ (if 0 < pb.healing then [Event.bHeal] else []) ∧
    (0 < pa.health → 0 < pb.health → ∀ fuel : Nat,
      runTrial track (fuel + 1) (initState pa pb r)
        = runTrial track fuel (tickStep track (initState pa pb r))) := by
  refine ⟨rfl, rfl, rfl, rfl, rfl, ?_, ?_⟩
  · rw [tickStep_trace]
    simp [initState, Character.init]
  · intro h1 h2 fuel
    apply runTrial_step
    · simpa [initState, Character.init] using h1
    · simpa [initState, Character.init] using h2

theorem first_tick_actions_witness :
    runTrial false (0 + 1) (initState cexParamsA cexParamsB halfRng)
      = runTrial false 0 (tickStep false (initState cexParamsA cexParamsB halfRng)) :=
  (first_tick_actions cexParamsA cexParamsB halfRng false).2.2.2.2.2.2
    (by norm_num [cexParamsA]) (by norm_num [cexParamsB]) 0
